import Mathlib

/-!
Shallow embedding of the resilient-client / reconciliation core of
docker-traefik-netcup-companion, together with proofs of the behavioural
properties stated in its specification.

The embedding follows the Go source:
* `internal/netcup/netcup.go` — circuit breaker (`CircuitBreaker.Call`,
  `onSuccess`, `onFailure`), retry loop (`doPostWithRetry`), backoff
  (`RetryConfig.calculateBackoff`), error classification
  (`isRetryableError`, `isRateLimitError`, `containsAny`), and the
  HTTP error construction of `doPost`.
* `internal/docker/watcher.go` — `splitHostname`.
* `internal/dns/manager.go` — `Manager.ProcessHostInfo`.

Machine integers of the Go code are modelled as `Nat` (the counters only
ever increment from zero or reset to zero); `time.Time` / `time.Duration`
values are modelled as `Nat` instants and durations; the `float64` backoff
arithmetic of `calculateBackoff` is modelled with exact rationals `ℚ`;
strings are modelled as `List Char` where substring structure matters and
as `String` where only equality matters.
-/

/-! ## Circuit breaker (netcup.go lines 70-97, 610-693) -/

/-- `CircuitBreakerState`: `StateClosed`, `StateOpen`, `StateHalfOpen`.
(`opened` stands for Go's `StateOpen`; `open` is a Lean keyword.) -/
inductive CBState where
  | closed
  | opened
  | halfOpen
deriving DecidableEq, Repr

/-- The `CircuitBreaker` struct. `lastFailureTime` is a `time.Time`
modelled as a `Nat` instant; `timeout` is a `time.Duration` modelled
as a `Nat` duration. -/
structure CircuitBreaker where
  state : CBState
  threshold : Nat
  timeout : Nat
  halfOpenMaxReqs : Nat
  failureCount : Nat
  successCount : Nat
  lastFailureTime : Nat
deriving DecidableEq, Repr

/-- `NewCircuitBreaker(threshold, timeout, halfOpenMaxReqs)`: state starts
`closed`, counters and last-failure time start at their zero values. -/
def newCircuitBreaker (threshold timeout halfOpenMaxReqs : Nat) : CircuitBreaker :=
  ⟨CBState.closed, threshold, timeout, halfOpenMaxReqs, 0, 0, 0⟩

/-- First step of `CircuitBreaker.Call`: if the state is open and
`time.Since(lastFailureTime) > timeout`, transition to half-open and
reset both counters. -/
def halfOpenTransition (cb : CircuitBreaker) (now : Nat) : CircuitBreaker :=
  if cb.state = CBState.opened ∧ cb.timeout < now - cb.lastFailureTime then
    { cb with state := CBState.halfOpen, successCount := 0, failureCount := 0 }
  else cb

/-- The admission gate of `CircuitBreaker.Call`: after the possible
open→half-open transition, the call is rejected with `ErrCircuitOpen`
(second component `false`) if the circuit is open, or if it is half-open
and the probe budget `successCount + failureCount >= halfOpenMaxReqs`
is exhausted; otherwise the protected function is invoked (`true`). -/
def admitStep (cb : CircuitBreaker) (now : Nat) : CircuitBreaker × Bool :=
  let cb1 := halfOpenTransition cb now
  if cb1.state = CBState.opened then (cb1, false)
  else if cb1.state = CBState.halfOpen ∧
      cb1.halfOpenMaxReqs ≤ cb1.successCount + cb1.failureCount then (cb1, false)
  else (cb1, true)

/-- `CircuitBreaker.onSuccess`. -/
def CircuitBreaker.onSuccess (cb : CircuitBreaker) : CircuitBreaker :=
  if cb.state = CBState.halfOpen then
    if cb.halfOpenMaxReqs ≤ cb.successCount + 1 then
      { cb with state := CBState.closed, failureCount := 0, successCount := 0 }
    else { cb with successCount := cb.successCount + 1 }
  else if cb.state = CBState.closed then
    { cb with failureCount := 0 }
  else cb

/-- `CircuitBreaker.onFailure`: increments the failure counter, records
the failure time, reopens on any half-open failure (resetting the success
counter), and opens from closed once the threshold is reached. -/
def CircuitBreaker.onFailure (cb : CircuitBreaker) (now : Nat) : CircuitBreaker :=
  let cb1 := { cb with failureCount := cb.failureCount + 1, lastFailureTime := now }
  if cb1.state = CBState.halfOpen then
    { cb1 with state := CBState.opened, successCount := 0 }
  else if cb1.state = CBState.closed ∧ cb1.threshold ≤ cb1.failureCount then
    { cb1 with state := CBState.opened }
  else cb1

/-- Outcome of the protected function `fn` when it is invoked. -/
inductive Outcome where
  | success
  | failure
deriving DecidableEq, Repr

/-- One `CircuitBreaker.Call` at instant `now` whose protected function,
if invoked, has outcome `out`. Returns the updated breaker and whether
the transport function was invoked (`false` means the call returned
`ErrCircuitOpen` without touching the transport). -/
def callStep (cb : CircuitBreaker) (now : Nat) (out : Outcome) : CircuitBreaker × Bool :=
  let g := admitStep cb now
  if g.2 then
    match out with
    | Outcome.success => (g.1.onSuccess, true)
    | Outcome.failure => (g.1.onFailure now, true)
  else (g.1, false)

/-- Fold a sequence of `Call`s (each an instant paired with the protected
function's outcome) over a breaker. -/
def applyCalls (cb : CircuitBreaker) (calls : List (Nat × Outcome)) : CircuitBreaker :=
  calls.foldl (fun c p => (callStep c p.1 p.2).1) cb

/-- A sequence of `Call`s whose protected function fails each time. -/
def applyFailures (cb : CircuitBreaker) (times : List Nat) : CircuitBreaker :=
  applyCalls cb (times.map fun t => (t, Outcome.failure))

/-- A sequence of `Call`s whose protected function succeeds each time. -/
def applySuccesses (cb : CircuitBreaker) (times : List Nat) : CircuitBreaker :=
  applyCalls cb (times.map fun t => (t, Outcome.success))

/-! ## Hostname splitting (watcher.go, `splitHostname`) -/

/-- `splitHostname` from the Docker watcher, on hostnames modelled as
`List Char`: `parts := strings.Split(hostname, ".")`; fewer than 2 or
exactly 2 parts give `(hostname, "@")`; otherwise the domain is the last
two parts joined by "." and the subdomain is the remaining leading parts
joined by ".". Returns `(domain, subdomain)`. -/
def splitHostname (hostname : List Char) : List Char × List Char :=
  let parts := hostname.splitOn '.'
  if parts.length < 2 then (hostname, ['@'])
  else if parts.length = 2 then (hostname, ['@'])
  else (List.intercalate ['.'] (parts.drop (parts.length - 2)),
        List.intercalate ['.'] (parts.take (parts.length - 2)))

/-! ## Error classification and backoff (netcup.go lines 696-761) -/

/-- The substring scan of `containsAny`: Go checks
`s[i:i+len(substr)] == substr` at every offset `i`. -/
def containsSub (s sub : List Char) : Bool :=
  if List.isPrefixOf sub s then true
  else
    match s with
    | [] => false
    | _ :: t => containsSub t sub

/-- `containsAny(s, substrs)`: whether `s` contains any of the given
substrings. -/
def containsAny (s : List Char) (substrs : List (List Char)) : Bool :=
  substrs.any fun sub => containsSub s sub

/-- A transport-level error value reaching the retry loop: whether it is
(or wraps) a `net.Error` together with that error's `Timeout()` and
`Temporary()` results, and its `Error()` message text. -/
structure TransportErr where
  isNetErr : Bool
  netTimeout : Bool
  netTemporary : Bool
  msg : List Char
deriving DecidableEq, Repr

/-- The Go `error` values that flow through `doPostWithRetry`:
the `ErrCircuitOpen` sentinel, a transport error from `doPost`, the
`successMarker` smuggling a successful response buffer through the
error channel, and the two `fmt.Errorf` wrappers produced by the loop
(`"circuit breaker open after %d attempts: %w"` and
`"max retries (%d) exceeded: %w"`, each wrapping the loop's `lastErr`;
`nilErr` stands for a wrapped Go `nil` error, produced when a wrapper is
built while `lastErr` is still `nil`). -/
inductive GoError where
  | nilErr
  | circuitOpen
  | transport (e : TransportErr)
  | successMark (buf : List Char)
  | circuitOpenAfter (attempt : Nat) (wrapped : GoError)
  | maxRetriesExceeded (maxR : Nat) (wrapped : GoError)
deriving DecidableEq, Repr

/-- The value wrapped by an `fmt.Errorf("...: %w", lastErr)` call:
`lastErr` itself, or the nil marker when `lastErr` is still `nil`. -/
def toWrapped : Option GoError → GoError
  | none => GoError.nilErr
  | some e => e

/-- `errors.Is(err, ErrCircuitOpen)`: the sentinel itself, or a wrapper
whose `%w` chain reaches it. Transport errors come from `doPost` and do
not wrap the sentinel. -/
def isCircuitOpenErr : GoError → Bool
  | GoError.circuitOpen => true
  | GoError.circuitOpenAfter _ w => isCircuitOpenErr w
  | GoError.maxRetriesExceeded _ w => isCircuitOpenErr w
  | _ => false

/-- `errors.As(err, &netErr)` data: the timeout/temporary flags when the
error is a `net.Error`. Only transport errors can be net errors. -/
def netErrFlags : GoError → Option (Bool × Bool)
  | GoError.transport e => if e.isNetErr then some (e.netTimeout, e.netTemporary) else none
  | _ => none

/-- The `Error()` message consulted by the retry loop's substring checks.
Only the sentinel, transport errors and the success marker ever reach
those checks; the wrapper messages are their format prefixes. -/
def errMsg : GoError → List Char
  | GoError.nilErr => []
  | GoError.circuitOpen => "circuit breaker is open".data
  | GoError.transport e => e.msg
  | GoError.successMark _ => "success".data
  | GoError.circuitOpenAfter _ _ => "circuit breaker open after".data
  | GoError.maxRetriesExceeded _ _ => "max retries exceeded".data

/-- The marker list of `isRetryableError`. -/
def retryableMarkers : List (List Char) :=
  ["rate limit".data, "too many requests".data, "429".data, "503".data, "timeout".data]

/-- The marker list of `isRateLimitError` (used in `doPost`). -/
def rateLimitTextMarkers : List (List Char) :=
  ["rate limit".data, "too many requests".data, "429".data]

/-- The marker list of the backoff-doubling check in `doPostWithRetry`. -/
def doublingMarkers : List (List Char) :=
  ["rate limit".data, "429".data]

/-- `isRetryableError`: `nil` is not retryable; circuit-open errors are
not retryable; a `net.Error` is retryable iff `Timeout() || Temporary()`;
otherwise the message is scanned for the retryable markers. -/
def isRetryableError : Option GoError → Bool
  | none => false
  | some e =>
    if isCircuitOpenErr e then false
    else match netErrFlags e with
      | some fl => fl.1 || fl.2
      | none => containsAny (errMsg e) retryableMarkers

/-- `RetryConfig`. Durations (`InitialBackoff`, `MaxBackoff`) and the
`float64` multiplier are modelled as exact rationals. -/
structure RetryConfig where
  MaxRetries : Nat
  InitialBackoff : ℚ
  MaxBackoff : ℚ
  BackoffMultiplier : ℚ
deriving DecidableEq

/-- `RetryConfig.calculateBackoff`: attempt 0 returns `InitialBackoff`
directly; later attempts return `InitialBackoff * BackoffMultiplier^attempt`
capped at `MaxBackoff`. -/
def RetryConfig.calculateBackoff (rc : RetryConfig) (attempt : Nat) : ℚ :=
  if attempt = 0 then rc.InitialBackoff
  else
    let backoff := rc.InitialBackoff * rc.BackoffMultiplier ^ attempt
    if rc.MaxBackoff < backoff then rc.MaxBackoff else backoff

/-! ## `doPost` error construction (netcup.go lines 722-737, 824-867) -/

/-- What one transport exchange of `doPost` can produce: a failure of
`httpClient.Do` (a `net`-level error with its flags and message), or an
HTTP response with a status code and a body. -/
inductive HttpExchange where
  | netErr (timeout temporary : Bool) (msg : List Char)
  | response (status : Nat) (body : List Char)
deriving DecidableEq, Repr

/-- `isRateLimitError(err, statusCode)`: true on status 429, else the
error message is scanned for the rate-limit text markers. -/
def isRateLimitError (msg : List Char) (statusCode : Nat) : Bool :=
  if statusCode = 429 then true
  else containsAny msg rateLimitTextMarkers

/-- `doPost`: a `Do` failure is returned as-is; a response with status
`>= 400` and a non-empty body becomes
`"unexpected error code: %d, response: %s"`, additionally wrapped as
`"rate limit exceeded: ..."` (wrapping `ErrRateLimitExceeded`) when
`isRateLimitError` holds; a status `>= 400` with an empty body becomes
`"unexpected error code: %d"`; otherwise the body buffer is returned. -/
def doPost : HttpExchange → Except TransportErr (List Char)
  | HttpExchange.netErr t tmp m => Except.error ⟨true, t, tmp, m⟩
  | HttpExchange.response status body =>
    if 400 ≤ status then
      if body ≠ [] then
        let respMsg := "unexpected error code: ".data ++ (Nat.repr status).data ++
          ", response: ".data ++ body
        if isRateLimitError respMsg status then
          Except.error ⟨false, false, false, "rate limit exceeded: ".data ++ respMsg⟩
        else Except.error ⟨false, false, false, respMsg⟩
      else Except.error ⟨false, false, false,
        "unexpected error code: ".data ++ (Nat.repr status).data⟩
    else Except.ok body

/-! ## The retry loop `doPostWithRetry` (netcup.go lines 763-812) -/

instance {ε α : Type} [DecidableEq ε] [DecidableEq α] : DecidableEq (Except ε α) :=
  fun a b =>
    match a, b with
    | Except.ok x, Except.ok y => decidable_of_iff (x = y) (by simp)
    | Except.ok _, Except.error _ => isFalse (by simp)
    | Except.error _, Except.ok _ => isFalse (by simp)
    | Except.error e, Except.error f => decidable_of_iff (e = f) (by simp)

/-- Observable trace of one `doPostWithRetry` run (from some loop
iteration onwards): the returned value, the final breaker state, the
sequence of sleeps performed (`time.Sleep` durations, in order), and the
number of times the transport (`doPost`) was invoked. -/
structure RunTrace where
  result : Except GoError (List Char)
  cbFinal : CircuitBreaker
  sleeps : List ℚ
  invocations : Nat
deriving DecidableEq

/-- The `for attempt := 0; attempt <= MaxRetries; attempt++` loop of
`doPostWithRetry`, from iteration `attempt` on. `script` gives, for each
attempt index, the current instant and the result of the transport
exchange should it be invoked. `fuel` counts the loop iterations still
permitted by the loop condition (`MaxRetries + 1 - attempt`); when it is
exhausted the loop falls through to the final
`"max retries (%d) exceeded: %w"` return. Loop body, in source order:
the circuit-breaker gate (fail fast with `ErrCircuitOpen` when rejected);
on invocation `lastErr` is set to the transport error or to the success
marker; then the success-marker check, the circuit-open check (abort,
wrapping `lastErr`), the out-of-retries break, the retryability check
(return `lastErr` as-is), and the backoff sleep (doubled when the message
contains "rate limit" or "429") before the next iteration. -/
def retryFrom (rc : RetryConfig) (script : Nat → Nat × HttpExchange) :
    Nat → Nat → CircuitBreaker → Option GoError → RunTrace
  | 0, _, cb, lastErr =>
    ⟨Except.error (GoError.maxRetriesExceeded rc.MaxRetries (toWrapped lastErr)), cb, [], 0⟩
  | fuel + 1, attempt, cb, lastErr =>
    let now := (script attempt).1
    let g := admitStep cb now
    if g.2 = false then
      match lastErr with
      | some (GoError.successMark b) => ⟨Except.ok b, g.1, [], 0⟩
      | _ => ⟨Except.error (GoError.circuitOpenAfter attempt (toWrapped lastErr)), g.1, [], 0⟩
    else
      match doPost (script attempt).2 with
      | Except.ok buf => ⟨Except.ok buf, g.1.onSuccess, [], 1⟩
      | Except.error e =>
        let cb2 := g.1.onFailure now
        let lastErr2 : Option GoError := some (GoError.transport e)
        if rc.MaxRetries ≤ attempt then
          ⟨Except.error (GoError.maxRetriesExceeded rc.MaxRetries (toWrapped lastErr2)),
            cb2, [], 1⟩
        else if isRetryableError lastErr2 = false then
          ⟨Except.error (GoError.transport e), cb2, [], 1⟩
        else
          let b0 := rc.calculateBackoff attempt
          let backoff := if containsAny e.msg doublingMarkers then b0 * 2 else b0
          let rest := retryFrom rc script fuel (attempt + 1) cb2 lastErr2
          ⟨rest.result, rest.cbFinal, backoff :: rest.sleeps, 1 + rest.invocations⟩

/-- `doPostWithRetry`: run the loop from attempt 0 with `lastErr = nil`
and the loop bound `MaxRetries + 1`. -/
def doPostWithRetry (rc : RetryConfig) (script : Nat → Nat × HttpExchange)
    (cb : CircuitBreaker) : RunTrace :=
  retryFrom rc script (rc.MaxRetries + 1) 0 cb none

/-- Whether a loop `lastErr` value is the success marker (the only shape
on which the circuit-open branch would not produce the wrapper error). -/
def isSuccessMark : Option GoError → Bool
  | some (GoError.successMark _) => true
  | _ => false

/-! ## The reconciliation engine (`Manager.ProcessHostInfo`, manager.go) -/

/-- A netcup `DnsRecord` (the fields consulted/sent by the manager). -/
structure DnsRecord where
  hostname : String
  type : String
  destination : String
  priority : String
deriving DecidableEq, Repr

/-- A `docker.HostInfo` desired-state fact. -/
structure HostInfo where
  containerName : String
  hostname : String
  domain : String
  subdomain : String
deriving DecidableEq, Repr

/-- The configuration fields read by `ProcessHostInfo`. -/
structure MgrConfig where
  hostIP : String
  dryRun : Bool
deriving DecidableEq, Repr

/-- The remote/system environment one `ProcessHostInfo` call runs
against: the auto-detected host IP (`none` = `getHostIP` failed), the
results of `Login`, `InfoDnsZone`, `InfoDnsRecords` (its record list on
success), `UpdateDnsRecords`, the persistent state store's
`UpdateRecord`, and whether a state manager is configured. The
environment is one fixed behaviour, so two calls against the same `Env`
see an unchanged remote ("no intervening remote state change"). -/
structure Env where
  autoIP : Option String
  loginOk : Bool
  zoneOk : Bool
  recordsOk : Bool
  records : List DnsRecord
  upsertOk : Bool
  hasStateManager : Bool
  persistOk : Bool
deriving DecidableEq, Repr

/-- The notifications `ProcessHostInfo` can emit, as structured stand-ins
for the formatted `SendError` / `SendInfo` / `SendSuccess` messages. -/
inductive Notif where
  | errLogin (hostname : String)
  | errZone (domain : String)
  | errRecords (domain : String)
  | errUpsert (hostname : String)
  | dryRunUpdate (hostname existingIP newIP : String)
  | dryRunCreate (hostname newIP : String)
  | successUpdate (hostname newIP : String)
  | successCreate (hostname newIP : String)
deriving DecidableEq, Repr

/-- The errors `ProcessHostInfo` can return (each wraps the underlying
cause in Go; the cause is irrelevant to the properties proved here). -/
inductive ProcErr where
  | hostIPFailed
  | loginFailed
  | zoneFailed
  | recordsFailed
  | upsertFailed
deriving DecidableEq, Repr

/-- Counts of the remote/session/persistence calls made during one
`ProcessHostInfo` run, plus the notifications sent and the number of
persistence failures that were downgraded to a log warning. -/
structure CallLog where
  logins : Nat
  zoneQueries : Nat
  recordQueries : Nat
  upserts : Nat
  persists : Nat
  persistWarnings : Nat
  notifs : List Notif
deriving DecidableEq, Repr

/-- The empty call log. -/
def emptyLog : CallLog := ⟨0, 0, 0, 0, 0, 0, []⟩

/-- Result of one `ProcessHostInfo` call: the returned value, the updated
known-hosts set, and the calls performed. -/
structure ProcResult where
  res : Except ProcErr Unit
  known : List String
  log : CallLog
deriving DecidableEq, Repr

/-- The first record the Go scan stops at: the first list element with
`record.Hostname == info.Subdomain && record.Type == "A"`. -/
def findMatch (records : List DnsRecord) (subdomain : String) : Option DnsRecord :=
  records.find? fun r => r.hostname == subdomain && r.type == "A"

/-- `Manager.ProcessHostInfo`, step by step from manager.go:
known-hosts short-circuit; host-IP resolution (configured `HOST_IP`
taking precedence over auto-detection); `Login`; `InfoDnsZone`;
`InfoDnsRecords`; scan for an existing A record for the subdomain
(first match decides: same destination → mark known and return success);
dry-run branch (report intended action, mark known, success); otherwise
`UpdateDnsRecords` (on failure: error notification, return the error,
known unchanged); on success mark known, call the state store's
`UpdateRecord` (failure only logged as a warning), send the success
notification and return success. -/
def processHostInfo (cfg : MgrConfig) (env : Env) (known : List String)
    (info : HostInfo) : ProcResult :=
  if known.contains info.hostname then ⟨Except.ok (), known, emptyLog⟩
  else
    match (if cfg.hostIP ≠ "" then some cfg.hostIP else env.autoIP) with
    | none => ⟨Except.error ProcErr.hostIPFailed, known, emptyLog⟩
    | some hostIP =>
      if env.loginOk = false then
        ⟨Except.error ProcErr.loginFailed, known,
          { emptyLog with logins := 1, notifs := [Notif.errLogin info.hostname] }⟩
      else if env.zoneOk = false then
        ⟨Except.error ProcErr.zoneFailed, known,
          { emptyLog with
              logins := 1
              zoneQueries := 1
              notifs := [Notif.errZone info.domain] }⟩
      else if env.recordsOk = false then
        ⟨Except.error ProcErr.recordsFailed, known,
          { emptyLog with
              logins := 1
              zoneQueries := 1
              recordQueries := 1
              notifs := [Notif.errRecords info.domain] }⟩
      else
        let queriesLog : CallLog :=
          { emptyLog with
              logins := 1
              zoneQueries := 1
              recordQueries := 1 }
        let scan := findMatch env.records info.subdomain
        let inSync := match scan with
          | some r => r.destination == hostIP
          | none => false
        if inSync then ⟨Except.ok (), info.hostname :: known, queriesLog⟩
        else
          let recordExists := scan.isSome
          let existingIP := match scan with
            | some r => r.destination
            | none => ""
          if cfg.dryRun then
            ⟨Except.ok (), info.hostname :: known,
              { queriesLog with notifs :=
                  [(if recordExists then Notif.dryRunUpdate info.hostname existingIP hostIP
                    else Notif.dryRunCreate info.hostname hostIP)] }⟩
          else if env.upsertOk = false then
            ⟨Except.error ProcErr.upsertFailed, known,
              { queriesLog with
                  upserts := 1
                  notifs := [Notif.errUpsert info.hostname] }⟩
          else
            let persistN := if env.hasStateManager then 1 else 0
            let warns := if env.hasStateManager ∧ env.persistOk = false then 1 else 0
            ⟨Except.ok (), info.hostname :: known,
              { queriesLog with
                  upserts := 1
                  persists := persistN
                  persistWarnings := warns
                  notifs :=
                    [(if recordExists then Notif.successUpdate info.hostname hostIP
                      else Notif.successCreate info.hostname hostIP)] }⟩

/-- The number of successful remote writes (`UpdateDnsRecords` calls that
did not return an error) recorded in a log, for a given environment. -/
def succUpserts (env : Env) (l : CallLog) : Nat :=
  if env.upsertOk then l.upserts else 0

/-! ## Helper lemmas -/

lemma intercalate_cons_ne_nil {α : Type} (x : α) (a : List α) (l : List (List α))
    (h : l ≠ []) : [x].intercalate (a :: l) = a ++ x :: [x].intercalate l := by
  cases l with
  | nil => exact absurd rfl h
  | cons b t =>
    simp [List.intercalate, List.intersperse_cons_cons]

lemma intercalate_append_ne_nil {α : Type} (x : α) :
    ∀ (l₁ l₂ : List (List α)), l₁ ≠ [] → l₂ ≠ [] →
      [x].intercalate (l₁ ++ l₂) = [x].intercalate l₁ ++ x :: [x].intercalate l₂ := by
  intro l₁
  induction l₁ with
  | nil => intro l₂ h _; exact absurd rfl h
  | cons a t ih =>
    intro l₂ _ h₂
    cases t with
    | nil =>
      rw [List.singleton_append, intercalate_cons_ne_nil x a l₂ h₂]
      simp [List.intercalate]
    | cons b t2 =>
      have hne : b :: t2 ++ l₂ ≠ [] := by simp
      rw [List.cons_append, intercalate_cons_ne_nil x a _ hne,
        intercalate_cons_ne_nil x a _ (by simp : b :: t2 ≠ []),
        ih l₂ (by simp) h₂]
      simp

lemma splitOn_ne_nil (hostname : List Char) : hostname.splitOn '.' ≠ [] := by
  simpa [List.splitOn] using List.splitOnP_ne_nil (fun c => c == '.') hostname

/-! ## C2: the zone split rule -/

/-- C2. For every hostname: with at least 3 dot-separated labels,
`splitHostname` returns the zone (domain) as the last two labels joined
by '.' and the label (subdomain) as the remaining leading labels joined
by '.', and `label ++ "." ++ zone` reassembles the hostname; with exactly
2 labels it returns the hostname itself as zone and "@" as label; with
fewer than 2 labels likewise. -/
theorem C2_zone_split_rule (hostname : List Char) :
    (3 ≤ (hostname.splitOn '.').length →
      splitHostname hostname =
        (List.intercalate ['.']
          ((hostname.splitOn '.').drop ((hostname.splitOn '.').length - 2)),
         List.intercalate ['.']
          ((hostname.splitOn '.').take ((hostname.splitOn '.').length - 2))) ∧
      (splitHostname hostname).2 ++ '.' :: (splitHostname hostname).1 = hostname) ∧
    ((hostname.splitOn '.').length = 2 → splitHostname hostname = (hostname, ['@'])) ∧
    ((hostname.splitOn '.').length < 2 → splitHostname hostname = (hostname, ['@'])) := by
  refine ⟨fun h3 => ?_, fun h2 => ?_, fun h1 => ?_⟩
  · have heq : splitHostname hostname =
        (List.intercalate ['.']
          ((hostname.splitOn '.').drop ((hostname.splitOn '.').length - 2)),
         List.intercalate ['.']
          ((hostname.splitOn '.').take ((hostname.splitOn '.').length - 2))) := by
      unfold splitHostname
      rw [if_neg (by omega), if_neg (by omega)]
    refine ⟨heq, ?_⟩
    rw [heq]
    have hkpos : 0 < (hostname.splitOn '.').length - 2 := by omega
    have htake : (hostname.splitOn '.').take ((hostname.splitOn '.').length - 2) ≠ [] := by
      apply List.ne_nil_of_length_pos
      rw [List.length_take]
      omega
    have hdrop : (hostname.splitOn '.').drop ((hostname.splitOn '.').length - 2) ≠ [] := by
      apply List.ne_nil_of_length_pos
      rw [List.length_drop]
      omega
    rw [← intercalate_append_ne_nil '.' _ _ htake hdrop, List.take_append_drop]
    exact List.intercalate_splitOn hostname '.'
  · unfold splitHostname
    rw [if_neg (by omega), if_pos h2]
  · unfold splitHostname
    rw [if_pos h1]

/-- Witness for C2 at the concrete hostnames "sub.app.example.com"
(4 labels), "example.com" (2 labels) and "localhost" (1 label). -/
theorem C2_zone_split_rule_witness :
    (3 ≤ ("sub.app.example.com".data.splitOn '.').length ∧
      splitHostname "sub.app.example.com".data =
        ("example.com".data, "sub.app".data) ∧
      (splitHostname "sub.app.example.com".data).2 ++ '.' ::
        (splitHostname "sub.app.example.com".data).1 = "sub.app.example.com".data) ∧
    splitHostname "example.com".data = ("example.com".data, ['@']) ∧
    splitHostname "localhost".data = ("localhost".data, ['@']) := by
  refine ⟨⟨by decide, ?_, ((C2_zone_split_rule "sub.app.example.com".data).1 (by decide)).2⟩,
    (C2_zone_split_rule "example.com".data).2.1 (by decide),
    (C2_zone_split_rule "localhost".data).2.2 (by decide)⟩
  · decide

/-! ## Circuit breaker lemmas -/

lemma applyFailures_cons (cb : CircuitBreaker) (t : Nat) (ts : List Nat) :
    applyFailures cb (t :: ts) = applyFailures (callStep cb t Outcome.failure).1 ts := rfl

lemma applySuccesses_cons (cb : CircuitBreaker) (t : Nat) (ts : List Nat) :
    applySuccesses cb (t :: ts) = applySuccesses (callStep cb t Outcome.success).1 ts := rfl


lemma callStep_closed_failure (cb : CircuitBreaker) (h : cb.state = CBState.closed)
    (now : Nat) :
    callStep cb now Outcome.failure =
      (if cb.threshold ≤ cb.failureCount + 1 then
        { cb with
            state := CBState.opened
            failureCount := cb.failureCount + 1
            lastFailureTime := now }
       else { cb with failureCount := cb.failureCount + 1, lastFailureTime := now },
       true) := by
  obtain ⟨st, th, tmo, hom, fc, sc, lt⟩ := cb
  simp only [CircuitBreaker.mk.injEq] at h ⊢
  subst h
  simp only [callStep, admitStep, halfOpenTransition, CircuitBreaker.onFailure]
  split_ifs <;> simp_all

set_option maxHeartbeats 1000000 in
lemma callStep_halfOpen_success (cb : CircuitBreaker) (h : cb.state = CBState.halfOpen)
    (hbudget : cb.successCount + cb.failureCount < cb.halfOpenMaxReqs) (now : Nat) :
    callStep cb now Outcome.success =
      (if cb.halfOpenMaxReqs ≤ cb.successCount + 1 then
        { cb with state := CBState.closed, failureCount := 0, successCount := 0 }
       else { cb with successCount := cb.successCount + 1 },
       true) := by
  obtain ⟨st, th, tmo, hom, fc, sc, lt⟩ := cb
  simp only at h hbudget
  subst h
  simp only [callStep, admitStep, halfOpenTransition, CircuitBreaker.onSuccess]
  split_ifs <;> simp_all <;> omega

lemma callStep_open_before_timeout (cb : CircuitBreaker) (now : Nat) (out : Outcome)
    (h : cb.state = CBState.opened) (ht : now - cb.lastFailureTime ≤ cb.timeout) :
    callStep cb now out = (cb, false) := by
  obtain ⟨st, th, tmo, hom, fc, sc, lt⟩ := cb
  simp only at h ht
  subst h
  have hlt : ¬ (tmo < now - lt) := by omega
  simp [callStep, admitStep, halfOpenTransition, hlt]

lemma admitStep_open_after_timeout (cb : CircuitBreaker) (now : Nat)
    (h : cb.state = CBState.opened) (ht : cb.timeout < now - cb.lastFailureTime)
    (hhom : 1 ≤ cb.halfOpenMaxReqs) :
    admitStep cb now =
      ({ cb with state := CBState.halfOpen, successCount := 0, failureCount := 0 },
       true) := by
  obtain ⟨st, th, tmo, hom, fc, sc, lt⟩ := cb
  simp only at h ht hhom
  subst h
  simp [admitStep, halfOpenTransition, ht]
  omega

lemma callStep_halfOpen_failure (cb : CircuitBreaker) (now : Nat)
    (h : cb.state = CBState.halfOpen)
    (hbudget : cb.successCount + cb.failureCount < cb.halfOpenMaxReqs) :
    callStep cb now Outcome.failure =
      ({ cb with
          state := CBState.opened
          successCount := 0
          failureCount := cb.failureCount + 1
          lastFailureTime := now },
       true) := by
  obtain ⟨st, th, tmo, hom, fc, sc, lt⟩ := cb
  simp only at h hbudget
  subst h
  simp only [callStep, admitStep, halfOpenTransition, CircuitBreaker.onFailure]
  split_ifs <;> simp_all <;> omega

lemma reach_open_of_failures :
    ∀ (ts : List Nat) (cb : CircuitBreaker), cb.state = CBState.closed →
      cb.failureCount + ts.length = cb.threshold → ts ≠ [] →
      (applyFailures cb ts).state = CBState.opened := by
  intro ts
  induction ts with
  | nil => intro cb _ _ h; exact absurd rfl h
  | cons t ts ih =>
    intro cb hst hcount _
    rw [applyFailures_cons, callStep_closed_failure cb hst t]
    cases ts with
    | nil =>
      have hth : cb.threshold ≤ cb.failureCount + 1 := by
        simp at hcount; omega
      rw [if_pos hth]
      simp [applyFailures, applyCalls]
    | cons t2 ts2 =>
      have hlt : ¬ cb.threshold ≤ cb.failureCount + 1 := by
        simp at hcount; omega
      rw [if_neg hlt]
      apply ih
      · exact hst
      · simp at hcount ⊢; omega
      · simp

lemma reach_closed_of_successes :
    ∀ (ts : List Nat) (cb : CircuitBreaker), cb.state = CBState.halfOpen →
      cb.failureCount = 0 → cb.successCount + ts.length = cb.halfOpenMaxReqs →
      ts ≠ [] →
      (applySuccesses cb ts).state = CBState.closed ∧
      (applySuccesses cb ts).failureCount = 0 ∧
      (applySuccesses cb ts).successCount = 0 := by
  intro ts
  induction ts with
  | nil => intro cb _ _ _ h; exact absurd rfl h
  | cons t ts ih =>
    intro cb hst hfc hcount _
    have hbudget : cb.successCount + cb.failureCount < cb.halfOpenMaxReqs := by
      simp at hcount; omega
    rw [applySuccesses_cons, callStep_halfOpen_success cb hst hbudget t]
    cases ts with
    | nil =>
      have hclose : cb.halfOpenMaxReqs ≤ cb.successCount + 1 := by
        simp at hcount; omega
      rw [if_pos hclose]
      simp [applySuccesses, applyCalls]
    | cons t2 ts2 =>
      have hlt : ¬ cb.halfOpenMaxReqs ≤ cb.successCount + 1 := by
        simp at hcount; omega
      rw [if_neg hlt]
      apply ih
      · exact hst
      · exact hfc
      · simp at hcount ⊢; omega
      · simp

/-! ## C1: circuit breaker state machine behaviour -/

/-- C1. Starting closed: (1) `threshold` consecutive failed calls while
closed leave the breaker open, so (2) a further call made while
`time.Since(lastFailureTime) <= timeout` returns the circuit-open error
without invoking the transport and without changing the breaker;
(3) once the timeout has elapsed, the next call transitions the breaker
to half-open (both counters reset) and is admitted as the probe;
(4) `halfOpenMaxReqs` consecutive successful calls from fresh half-open
close the breaker with both counters reset; (5) a single failed call in
half-open (within the probe budget) reopens the breaker and resets the
success counter. -/
theorem C1_circuit_breaker_lifecycle :
    (∀ (threshold timeoutD hom : Nat) (ts : List Nat), 1 ≤ threshold →
      ts.length = threshold →
      (applyFailures (newCircuitBreaker threshold timeoutD hom) ts).state =
        CBState.opened) ∧
    (∀ (cb : CircuitBreaker) (now : Nat) (out : Outcome),
      cb.state = CBState.opened → now - cb.lastFailureTime ≤ cb.timeout →
      callStep cb now out = (cb, false)) ∧
    (∀ (cb : CircuitBreaker) (now : Nat),
      cb.state = CBState.opened → cb.timeout < now - cb.lastFailureTime →
      1 ≤ cb.halfOpenMaxReqs →
      admitStep cb now =
        ({ cb with state := CBState.halfOpen, successCount := 0, failureCount := 0 },
         true)) ∧
    (∀ (cb : CircuitBreaker) (ts : List Nat),
      cb.state = CBState.halfOpen → cb.failureCount = 0 → cb.successCount = 0 →
      1 ≤ cb.halfOpenMaxReqs → ts.length = cb.halfOpenMaxReqs →
      (applySuccesses cb ts).state = CBState.closed ∧
      (applySuccesses cb ts).failureCount = 0 ∧
      (applySuccesses cb ts).successCount = 0) ∧
    (∀ (cb : CircuitBreaker) (now : Nat),
      cb.state = CBState.halfOpen →
      cb.successCount + cb.failureCount < cb.halfOpenMaxReqs →
      (callStep cb now Outcome.failure).1.state = CBState.opened ∧
      (callStep cb now Outcome.failure).1.successCount = 0 ∧
      (callStep cb now Outcome.failure).2 = true) := by
  refine ⟨?_, ?_, ?_, ?_, ?_⟩
  · intro threshold timeoutD hom ts hth hlen
    apply reach_open_of_failures ts (newCircuitBreaker threshold timeoutD hom) rfl
    · simp [newCircuitBreaker, hlen]
    · intro hnil
      rw [hnil] at hlen
      simp at hlen
      omega
  · exact callStep_open_before_timeout
  · exact admitStep_open_after_timeout
  · intro cb ts hst hfc hsc hhom hlen
    apply reach_closed_of_successes ts cb hst hfc
    · omega
    · intro hnil
      rw [hnil] at hlen
      simp at hlen
      omega
  · intro cb now hst hbudget
    rw [callStep_halfOpen_failure cb now hst hbudget]
    obtain ⟨st, th, tmo, hom, fc, sc, lt⟩ := cb
    simp

/-- Witness for C1 at concrete breakers: threshold 2 / timeout 7 /
half-open budget 2, failures at instants 3 and 4, a rejected call at
instant 5, an admitted probe at instant 20, two successes closing the
breaker, and a half-open failure reopening it. -/
theorem C1_circuit_breaker_lifecycle_witness :
    (applyFailures (newCircuitBreaker 2 7 2) [3, 4]).state = CBState.opened ∧
    callStep ⟨CBState.opened, 2, 7, 2, 2, 0, 4⟩ 5 Outcome.success =
      (⟨CBState.opened, 2, 7, 2, 2, 0, 4⟩, false) ∧
    admitStep ⟨CBState.opened, 2, 7, 2, 2, 0, 4⟩ 20 =
      (⟨CBState.halfOpen, 2, 7, 2, 0, 0, 4⟩, true) ∧
    ((applySuccesses ⟨CBState.halfOpen, 2, 7, 2, 0, 0, 4⟩ [21, 22]).state =
        CBState.closed ∧
      (applySuccesses ⟨CBState.halfOpen, 2, 7, 2, 0, 0, 4⟩ [21, 22]).failureCount = 0 ∧
      (applySuccesses ⟨CBState.halfOpen, 2, 7, 2, 0, 0, 4⟩ [21, 22]).successCount = 0) ∧
    ((callStep ⟨CBState.halfOpen, 2, 7, 2, 0, 0, 4⟩ 21 Outcome.failure).1.state =
        CBState.opened ∧
      (callStep ⟨CBState.halfOpen, 2, 7, 2, 0, 0, 4⟩ 21 Outcome.failure).1.successCount
        = 0 ∧
      (callStep ⟨CBState.halfOpen, 2, 7, 2, 0, 0, 4⟩ 21 Outcome.failure).2 = true) :=
  ⟨C1_circuit_breaker_lifecycle.1 2 7 2 [3, 4] (by decide) (by decide),
   C1_circuit_breaker_lifecycle.2.1 _ 5 Outcome.success (by decide) (by decide),
   C1_circuit_breaker_lifecycle.2.2.1 _ 20 (by decide) (by decide) (by decide),
   C1_circuit_breaker_lifecycle.2.2.2.1 _ [21, 22] (by decide) (by decide) (by decide)
     (by decide) (by decide),
   C1_circuit_breaker_lifecycle.2.2.2.2 _ 21 (by decide) (by decide)⟩

/-! ## C10: closed-state failure counter invariant -/

lemma callStep_threshold_eq (cb : CircuitBreaker) (now : Nat) (out : Outcome) :
    (callStep cb now out).1.threshold = cb.threshold := by
  obtain ⟨st, th, tmo, hom, fc, sc, lt⟩ := cb
  cases out <;>
    simp only [callStep, admitStep, halfOpenTransition, CircuitBreaker.onSuccess,
      CircuitBreaker.onFailure] <;>
    split_ifs <;> rfl

lemma callStep_closed_inv (cb : CircuitBreaker) (now : Nat) (out : Outcome)
    (hth : 1 ≤ cb.threshold)
    (hinv : cb.state = CBState.closed → cb.failureCount < cb.threshold) :
    (callStep cb now out).1.state = CBState.closed →
      (callStep cb now out).1.failureCount < cb.threshold := by
  obtain ⟨st, th, tmo, hom, fc, sc, lt⟩ := cb
  simp only at hth hinv ⊢
  cases out <;>
    simp only [callStep, admitStep, halfOpenTransition, CircuitBreaker.onSuccess,
      CircuitBreaker.onFailure] <;>
    split_ifs <;> simp_all <;> omega

lemma applyCalls_closed_inv :
    ∀ (calls : List (Nat × Outcome)) (cb : CircuitBreaker), 1 ≤ cb.threshold →
      (cb.state = CBState.closed → cb.failureCount < cb.threshold) →
      (applyCalls cb calls).threshold = cb.threshold ∧
      ((applyCalls cb calls).state = CBState.closed →
        (applyCalls cb calls).failureCount < cb.threshold) := by
  intro calls
  induction calls with
  | nil => intro cb _ hinv; exact ⟨rfl, hinv⟩
  | cons c calls ih =>
    intro cb hth hinv
    have hstep : applyCalls cb (c :: calls) =
        applyCalls (callStep cb c.1 c.2).1 calls := rfl
    have hpres := callStep_threshold_eq cb c.1 c.2
    have hinv2 := callStep_closed_inv cb c.1 c.2 hth hinv
    have := ih (callStep cb c.1 c.2).1 (by omega) (by rw [hpres]; exact hinv2)
    rw [hstep]
    exact ⟨by rw [this.1, hpres], by rw [hpres] at this; exact this.2⟩

/-- C10. For every breaker with `threshold >= 1`, in every state reachable
from the initial closed breaker by any sequence of `Call`s with arbitrary
outcomes: whenever the state is closed, the failure counter is strictly
below the threshold. -/
theorem C10_closed_failure_count_invariant (threshold timeoutD hom : Nat)
    (calls : List (Nat × Outcome)) (hth : 1 ≤ threshold) :
    (applyCalls (newCircuitBreaker threshold timeoutD hom) calls).state =
        CBState.closed →
      (applyCalls (newCircuitBreaker threshold timeoutD hom) calls).failureCount <
        threshold := by
  have := applyCalls_closed_inv calls (newCircuitBreaker threshold timeoutD hom)
    (by simpa [newCircuitBreaker] using hth)
    (by intro _; simpa [newCircuitBreaker] using hth)
  simpa [newCircuitBreaker] using this.2

/-- Witness for C10: threshold 2, two failures then a success then a
failure; the breaker is open at the end, and the implication holds
(evaluated concretely). -/
theorem C10_closed_failure_count_invariant_witness :
    1 ≤ 2 ∧
    ((applyCalls (newCircuitBreaker 2 7 1)
        [(1, Outcome.failure), (2, Outcome.failure), (30, Outcome.success)]).state =
          CBState.closed →
      (applyCalls (newCircuitBreaker 2 7 1)
        [(1, Outcome.failure), (2, Outcome.failure), (30, Outcome.success)]).failureCount
          < 2) :=
  ⟨by decide,
   C10_closed_failure_count_invariant 2 7 1
     [(1, Outcome.failure), (2, Outcome.failure), (30, Outcome.success)] (by decide)⟩

/-! ## C7: backoff monotonicity -/

/-- C7 counterexample. `calculateBackoff` is not monotone for every retry
configuration: with `InitialBackoff = 4`, `MaxBackoff = 30` and
`BackoffMultiplier = 1/2` (all exactly representable in `float64`),
attempt 0 returns 4 and attempt 1 returns 2, strictly less, while the
`MaxBackoff` ceiling (30) has not been reached. -/
theorem C7_counterexample :
    RetryConfig.calculateBackoff ⟨3, 4, 30, 1/2⟩ 1 <
      RetryConfig.calculateBackoff ⟨3, 4, 30, 1/2⟩ 0 ∧
    RetryConfig.calculateBackoff ⟨3, 4, 30, 1/2⟩ 0 < 30 := by
  constructor <;> norm_num [RetryConfig.calculateBackoff]

/-- C7 as amended: for a retry configuration with
`0 ≤ InitialBackoff ≤ MaxBackoff` and `BackoffMultiplier ≥ 1`,
`calculateBackoff` is monotone in the attempt index, and once it returns
`MaxBackoff` it keeps returning `MaxBackoff`. -/
theorem C7_backoff_monotone (rc : RetryConfig) (n : Nat)
    (h0 : 0 ≤ rc.InitialBackoff) (h1 : rc.InitialBackoff ≤ rc.MaxBackoff)
    (hm : 1 ≤ rc.BackoffMultiplier) :
    rc.calculateBackoff n ≤ rc.calculateBackoff (n + 1) ∧
    (rc.calculateBackoff n = rc.MaxBackoff →
      rc.calculateBackoff (n + 1) = rc.MaxBackoff) := by
  have hm0 : (0:ℚ) ≤ rc.BackoffMultiplier := le_trans zero_le_one hm
  have hpow : ∀ k : Nat,
      rc.InitialBackoff * rc.BackoffMultiplier ^ k ≤
        rc.InitialBackoff * rc.BackoffMultiplier ^ (k + 1) := by
    intro k
    apply mul_le_mul_of_nonneg_left _ h0
    calc rc.BackoffMultiplier ^ k = rc.BackoffMultiplier ^ k * 1 := by ring
    _ ≤ rc.BackoffMultiplier ^ k * rc.BackoffMultiplier := by
        exact mul_le_mul_of_nonneg_left hm (pow_nonneg hm0 k)
    _ = rc.BackoffMultiplier ^ (k + 1) := by ring
  cases n with
  | zero =>
    have h00 : rc.calculateBackoff 0 = rc.InitialBackoff := by
      simp [RetryConfig.calculateBackoff]
    have hb1 : rc.calculateBackoff 1 =
        if rc.MaxBackoff < rc.InitialBackoff * rc.BackoffMultiplier ^ 1 then
          rc.MaxBackoff
        else rc.InitialBackoff * rc.BackoffMultiplier ^ 1 := by
      simp [RetryConfig.calculateBackoff]
    have hself : rc.InitialBackoff ≤ rc.InitialBackoff * rc.BackoffMultiplier ^ 1 := by
      simpa using hpow 0
    constructor
    · rw [h00, hb1]
      split_ifs with hcap
      · exact h1
      · exact hself
    · intro hEq
      rw [h00] at hEq
      rw [hb1]
      split_ifs with hcap
      · rfl
      · have hle : rc.InitialBackoff * rc.BackoffMultiplier ^ 1 ≤ rc.MaxBackoff :=
          not_lt.mp hcap
        rw [← hEq] at hle ⊢
        linarith
  | succ k =>
    have hb1 : rc.calculateBackoff (k + 1) =
        if rc.MaxBackoff < rc.InitialBackoff * rc.BackoffMultiplier ^ (k + 1) then
          rc.MaxBackoff
        else rc.InitialBackoff * rc.BackoffMultiplier ^ (k + 1) := by
      simp [RetryConfig.calculateBackoff]
    have hb2 : rc.calculateBackoff (k + 2) =
        if rc.MaxBackoff < rc.InitialBackoff * rc.BackoffMultiplier ^ (k + 2) then
          rc.MaxBackoff
        else rc.InitialBackoff * rc.BackoffMultiplier ^ (k + 2) := by
      simp [RetryConfig.calculateBackoff]
    have key : rc.InitialBackoff * rc.BackoffMultiplier ^ (k + 1) ≤
        rc.InitialBackoff * rc.BackoffMultiplier ^ (k + 2) := hpow (k + 1)
    constructor
    · rw [hb1, hb2]
      split_ifs <;> linarith
    · intro hEq
      rw [hb1] at hEq
      rw [hb2]
      split_ifs at hEq ⊢ <;> linarith

/-- Witness for C7 as amended, at the default retry configuration
(3 retries, 1000ms initial, 30000ms max, multiplier 2), attempt 4. -/
theorem C7_backoff_monotone_witness :
    (0:ℚ) ≤ (RetryConfig.mk 3 1000 30000 2).InitialBackoff ∧
    (RetryConfig.mk 3 1000 30000 2).InitialBackoff ≤
      (RetryConfig.mk 3 1000 30000 2).MaxBackoff ∧
    (1:ℚ) ≤ (RetryConfig.mk 3 1000 30000 2).BackoffMultiplier ∧
    ((RetryConfig.mk 3 1000 30000 2).calculateBackoff 4 ≤
      (RetryConfig.mk 3 1000 30000 2).calculateBackoff 5 ∧
     ((RetryConfig.mk 3 1000 30000 2).calculateBackoff 4 =
        (RetryConfig.mk 3 1000 30000 2).MaxBackoff →
      (RetryConfig.mk 3 1000 30000 2).calculateBackoff 5 =
        (RetryConfig.mk 3 1000 30000 2).MaxBackoff)) :=
  ⟨by decide, by decide, by decide,
   C7_backoff_monotone (RetryConfig.mk 3 1000 30000 2) 4 (by decide) (by decide)
     (by decide)⟩

/-! ## Retry loop lemmas -/

lemma retryFrom_rejected (rc : RetryConfig) (script : Nat → Nat × HttpExchange)
    (fuel attempt : Nat) (cb : CircuitBreaker) (lastErr : Option GoError)
    (hrej : (admitStep cb (script attempt).1).2 = false)
    (hmark : isSuccessMark lastErr = false) :
    retryFrom rc script (fuel + 1) attempt cb lastErr =
      ⟨Except.error (GoError.circuitOpenAfter attempt (toWrapped lastErr)),
       (admitStep cb (script attempt).1).1, [], 0⟩ := by
  cases lastErr with
  | none => simp [retryFrom, hrej, toWrapped]
  | some e => cases e <;> simp_all [retryFrom, isSuccessMark, toWrapped]

lemma retryFrom_success (rc : RetryConfig) (script : Nat → Nat × HttpExchange)
    (fuel attempt : Nat) (cb : CircuitBreaker) (lastErr : Option GoError)
    (buf : List Char)
    (hadm : (admitStep cb (script attempt).1).2 = true)
    (hdp : doPost (script attempt).2 = Except.ok buf) :
    retryFrom rc script (fuel + 1) attempt cb lastErr =
      ⟨Except.ok buf, (admitStep cb (script attempt).1).1.onSuccess, [], 1⟩ := by
  simp [retryFrom, hadm, hdp]

lemma retryFrom_last_attempt (rc : RetryConfig) (script : Nat → Nat × HttpExchange)
    (fuel : Nat) (cb : CircuitBreaker) (lastErr : Option GoError) (e : TransportErr)
    (hadm : (admitStep cb (script rc.MaxRetries).1).2 = true)
    (hdp : doPost (script rc.MaxRetries).2 = Except.error e) :
    retryFrom rc script (fuel + 1) rc.MaxRetries cb lastErr =
      ⟨Except.error (GoError.maxRetriesExceeded rc.MaxRetries (GoError.transport e)),
       (admitStep cb (script rc.MaxRetries).1).1.onFailure (script rc.MaxRetries).1,
       [], 1⟩ := by
  simp [retryFrom, hadm, hdp, toWrapped]

lemma retryFrom_nonretryable (rc : RetryConfig) (script : Nat → Nat × HttpExchange)
    (fuel attempt : Nat) (cb : CircuitBreaker) (lastErr : Option GoError)
    (e : TransportErr)
    (hatt : attempt < rc.MaxRetries)
    (hadm : (admitStep cb (script attempt).1).2 = true)
    (hdp : doPost (script attempt).2 = Except.error e)
    (hretry : isRetryableError (some (GoError.transport e)) = false) :
    retryFrom rc script (fuel + 1) attempt cb lastErr =
      ⟨Except.error (GoError.transport e),
       (admitStep cb (script attempt).1).1.onFailure (script attempt).1, [], 1⟩ := by
  have hmax : ¬ rc.MaxRetries ≤ attempt := by omega
  simp [retryFrom, hadm, hdp, hmax, hretry]

lemma retryFrom_retry_step (rc : RetryConfig) (script : Nat → Nat × HttpExchange)
    (fuel attempt : Nat) (cb : CircuitBreaker) (lastErr : Option GoError)
    (e : TransportErr)
    (hatt : attempt < rc.MaxRetries)
    (hadm : (admitStep cb (script attempt).1).2 = true)
    (hdp : doPost (script attempt).2 = Except.error e)
    (hretry : isRetryableError (some (GoError.transport e)) = true) :
    retryFrom rc script (fuel + 1) attempt cb lastErr =
      ⟨(retryFrom rc script fuel (attempt + 1)
          ((admitStep cb (script attempt).1).1.onFailure (script attempt).1)
          (some (GoError.transport e))).result,
       (retryFrom rc script fuel (attempt + 1)
          ((admitStep cb (script attempt).1).1.onFailure (script attempt).1)
          (some (GoError.transport e))).cbFinal,
       (if containsAny e.msg doublingMarkers then rc.calculateBackoff attempt * 2
        else rc.calculateBackoff attempt) ::
        (retryFrom rc script fuel (attempt + 1)
          ((admitStep cb (script attempt).1).1.onFailure (script attempt).1)
          (some (GoError.transport e))).sleeps,
       1 + (retryFrom rc script fuel (attempt + 1)
          ((admitStep cb (script attempt).1).1.onFailure (script attempt).1)
          (some (GoError.transport e))).invocations⟩ := by
  have hmax : ¬ rc.MaxRetries ≤ attempt := by omega
  simp [retryFrom, hadm, hdp, hmax, hretry]

lemma retryFrom_invocations_le :
    ∀ (fuel : Nat) (rc : RetryConfig) (script : Nat → Nat × HttpExchange)
      (attempt : Nat) (cb : CircuitBreaker) (lastErr : Option GoError),
      (retryFrom rc script fuel attempt cb lastErr).invocations ≤ fuel := by
  intro fuel
  induction fuel with
  | zero => intro rc script attempt cb lastErr; simp [retryFrom]
  | succ fuel ih =>
    intro rc script attempt cb lastErr
    by_cases hrej : (admitStep cb (script attempt).1).2 = false
    · by_cases hmark : isSuccessMark lastErr = true
      · match lastErr, hmark with
        | some (GoError.successMark b), _ =>
          simp [retryFrom, hrej]
      · rw [retryFrom_rejected rc script fuel attempt cb lastErr hrej
          (by simpa using hmark)]
        simp
    · have hadm : (admitStep cb (script attempt).1).2 = true := by
        simpa using hrej
      rcases hdp : doPost (script attempt).2 with e | buf
      · by_cases hmax : rc.MaxRetries ≤ attempt
        · simp [retryFrom, hadm, hdp, hmax]
        · by_cases hretry : isRetryableError (some (GoError.transport e)) = true
          · rw [retryFrom_retry_step rc script fuel attempt cb lastErr e
              (by omega) hadm hdp hretry]
            have := ih rc script (attempt + 1)
              ((admitStep cb (script attempt).1).1.onFailure (script attempt).1)
              (some (GoError.transport e))
            simp
            omega
          · rw [retryFrom_nonretryable rc script fuel attempt cb lastErr e
              (by omega) hadm hdp (by simpa using hretry)]
            simp
      · rw [retryFrom_success rc script fuel attempt cb lastErr buf hadm hdp]
        simp

lemma retryFrom_circuitOpen_shape :
    ∀ (fuel : Nat) (rc : RetryConfig) (script : Nat → Nat × HttpExchange)
      (attempt : Nat) (cb : CircuitBreaker) (lastErr : Option GoError)
      (a : Nat) (w : GoError),
      (retryFrom rc script fuel attempt cb lastErr).result =
        Except.error (GoError.circuitOpenAfter a w) →
      (a = attempt ∧ w = toWrapped lastErr) ∨
      (attempt < a ∧ ∃ e : TransportErr,
        doPost (script (a - 1)).2 = Except.error e ∧ w = GoError.transport e) := by
  intro fuel
  induction fuel with
  | zero =>
    intro rc script attempt cb lastErr a w h
    simp [retryFrom] at h
  | succ fuel ih =>
    intro rc script attempt cb lastErr a w h
    by_cases hrej : (admitStep cb (script attempt).1).2 = false
    · by_cases hmark : isSuccessMark lastErr = true
      · match lastErr, hmark with
        | some (GoError.successMark b), _ =>
          simp [retryFrom, hrej] at h
      · rw [retryFrom_rejected rc script fuel attempt cb lastErr hrej
          (by simpa using hmark)] at h
        simp at h
        exact Or.inl ⟨h.1.symm, h.2.symm⟩
    · have hadm : (admitStep cb (script attempt).1).2 = true := by
        simpa using hrej
      rcases hdp : doPost (script attempt).2 with e | buf
      · by_cases hmax : rc.MaxRetries ≤ attempt
        · simp [retryFrom, hadm, hdp, hmax] at h
        · by_cases hretry : isRetryableError (some (GoError.transport e)) = true
          · rw [retryFrom_retry_step rc script fuel attempt cb lastErr e
              (by omega) hadm hdp hretry] at h
            simp at h
            rcases ih rc script (attempt + 1)
              ((admitStep cb (script attempt).1).1.onFailure (script attempt).1)
              (some (GoError.transport e)) a w h with hl | hr
            · refine Or.inr ⟨by omega, e, ?_, hl.2⟩
              have : a - 1 = attempt := by omega
              rw [this]
              exact hdp
            · exact Or.inr ⟨by omega, hr.2⟩
          · rw [retryFrom_nonretryable rc script fuel attempt cb lastErr e
              (by omega) hadm hdp (by simpa using hretry)] at h
            simp at h
      · rw [retryFrom_success rc script fuel attempt cb lastErr buf hadm hdp] at h
        simp at h

/-! ## C3: circuit-open aborts the retry loop -/

/-- C3 counterexample. When the circuit is already open at the very first
attempt (attempt index 0) — reachable because the breaker is shared
across `doPostWithRetry` invocations — the returned circuit-open error
wraps `lastErr`, which is still `nil`: there is no "error from the
preceding attempt" to wrap. Concretely: breaker open since instant 100
with timeout 50, call at instant 120. -/
theorem C3_counterexample :
    (doPostWithRetry ⟨3, 1000, 30000, 2⟩
      (fun _ => (120, HttpExchange.response 200 "ok".data))
      ⟨CBState.opened, 3, 50, 1, 3, 0, 100⟩).result =
      Except.error (GoError.circuitOpenAfter 0 GoError.nilErr) := by
  rfl

/-- C3 as amended: whenever an attempt is rejected because the circuit is
open, the loop (1) aborts at once — no transport invocation, no sleep, no
further attempts — returning the circuit-open wrapper around the loop's
recorded `lastErr`; and (2) in a full `doPostWithRetry` run, when the
rejection happens at attempt index `a ≥ 1` the wrapped value is exactly
the transport error of attempt `a-1`, while at the very first attempt
(`a = 0`) it is the wrapped `nil` (no prior error exists). -/
theorem C3_circuit_open_abort :
    (∀ (rc : RetryConfig) (script : Nat → Nat × HttpExchange) (fuel attempt : Nat)
      (cb : CircuitBreaker) (lastErr : Option GoError),
      (admitStep cb (script attempt).1).2 = false →
      isSuccessMark lastErr = false →
      retryFrom rc script (fuel + 1) attempt cb lastErr =
        ⟨Except.error (GoError.circuitOpenAfter attempt (toWrapped lastErr)),
         (admitStep cb (script attempt).1).1, [], 0⟩) ∧
    (∀ (rc : RetryConfig) (script : Nat → Nat × HttpExchange) (cb : CircuitBreaker)
      (a : Nat) (w : GoError),
      (doPostWithRetry rc script cb).result =
        Except.error (GoError.circuitOpenAfter a w) →
      1 ≤ a →
      ∃ e : TransportErr, doPost (script (a - 1)).2 = Except.error e ∧
        w = GoError.transport e) := by
  constructor
  · exact retryFrom_rejected
  · intro rc script cb a w h ha
    rcases retryFrom_circuitOpen_shape (rc.MaxRetries + 1) rc script 0 cb none a w h
      with hl | hr
    · omega
    · exact hr.2

/-- Witness for C3 as amended: (1) the abort at a concrete rejected
attempt; (2) in the concrete run that trips the breaker at attempt 1 and
is rejected at attempt 2, the wrapped error is the transport error of
attempt 1. -/
theorem C3_circuit_open_abort_witness :
    (retryFrom ⟨3, 1000, 30000, 2⟩
        (fun _ => (120, HttpExchange.response 200 "ok".data)) 4 0
        ⟨CBState.opened, 3, 50, 1, 3, 0, 100⟩ none =
      ⟨Except.error (GoError.circuitOpenAfter 0 GoError.nilErr),
       ⟨CBState.opened, 3, 50, 1, 3, 0, 100⟩, [], 0⟩) ∧
    doPost ((fun a =>
        if a = 0 then (10, HttpExchange.netErr false true "connection reset".data)
        else if a = 1 then (20, HttpExchange.netErr false true "connection reset".data)
        else (30, HttpExchange.response 200 "ok".data)) (2 - 1)).2 =
      Except.error ⟨true, false, true, "connection reset".data⟩ := by
  constructor
  · exact C3_circuit_open_abort.1 ⟨3, 1000, 30000, 2⟩
      (fun _ => (120, HttpExchange.response 200 "ok".data)) 3 0
      ⟨CBState.opened, 3, 50, 1, 3, 0, 100⟩ none (by decide) (by decide)
  · obtain ⟨e, he1, he2⟩ := C3_circuit_open_abort.2 ⟨3, 1000, 30000, 2⟩
      (fun a =>
        if a = 0 then (10, HttpExchange.netErr false true "connection reset".data)
        else if a = 1 then (20, HttpExchange.netErr false true "connection reset".data)
        else (30, HttpExchange.response 200 "ok".data))
      (newCircuitBreaker 2 100 1) 2
      (GoError.transport ⟨true, false, true, "connection reset".data⟩)
      (by rfl) (by decide)
    injection he2 with h3
    rw [h3]
    exact he1

/-! ## C5: backoff doubling on rate-limit failures -/

/-- C5 counterexample. A retryable transport-level failure whose message
is the textual too-many-requests marker (and contains neither "rate
limit" nor "429") sleeps the normal backoff, not double: with the default
configuration the sleep before the retry is 1000, not 2000. -/
theorem C5_counterexample :
    (doPostWithRetry ⟨3, 1000, 30000, 2⟩
      (fun a =>
        if a = 0 then (10, HttpExchange.netErr false true "too many requests".data)
        else (20, HttpExchange.response 200 "ok".data))
      (newCircuitBreaker 5 60 1)).sleeps = [(1000 : ℚ)] ∧
    (1000 : ℚ) ≠ 2 * 1000 := by
  constructor
  · rfl
  · norm_num

/-- C5 as amended: after a retryable failed attempt (below the retry
limit), the sleep before the next attempt is the code's
`calculateBackoff(attempt)`, doubled exactly when the failed attempt's
error message contains "rate limit" or "429" (`doublingMarkers`) — not
for every textual too-many-requests marker. (HTTP responses classified
rate-limited by `doPost` always carry the "rate limit exceeded:" prefix,
so they are doubled; bare transport errors are doubled only on those two
substrings.) -/
theorem C5_rate_limit_backoff_doubling (rc : RetryConfig)
    (script : Nat → Nat × HttpExchange) (fuel attempt : Nat) (cb : CircuitBreaker)
    (lastErr : Option GoError) (e : TransportErr)
    (hatt : attempt < rc.MaxRetries)
    (hadm : (admitStep cb (script attempt).1).2 = true)
    (hdp : doPost (script attempt).2 = Except.error e)
    (hretry : isRetryableError (some (GoError.transport e)) = true) :
    (retryFrom rc script (fuel + 1) attempt cb lastErr).sleeps.head? =
      some (if containsAny e.msg doublingMarkers then rc.calculateBackoff attempt * 2
            else rc.calculateBackoff attempt) := by
  rw [retryFrom_retry_step rc script fuel attempt cb lastErr e hatt hadm hdp hretry]
  rfl

/-- Witness for C5 as amended: a failure whose message contains
"rate limit" at attempt 0 of the default configuration. -/
theorem C5_rate_limit_backoff_doubling_witness :
    (retryFrom ⟨3, 1000, 30000, 2⟩
      (fun a =>
        if a = 0 then (10, HttpExchange.netErr false true "rate limit hit".data)
        else (20, HttpExchange.response 200 "ok".data))
      4 0 (newCircuitBreaker 5 60 1) none).sleeps.head? =
      some (if containsAny ("rate limit hit".data) doublingMarkers then
              RetryConfig.calculateBackoff ⟨3, 1000, 30000, 2⟩ 0 * 2
            else RetryConfig.calculateBackoff ⟨3, 1000, 30000, 2⟩ 0) :=
  C5_rate_limit_backoff_doubling ⟨3, 1000, 30000, 2⟩
    (fun a =>
      if a = 0 then (10, HttpExchange.netErr false true "rate limit hit".data)
      else (20, HttpExchange.response 200 "ok".data))
    3 0 (newCircuitBreaker 5 60 1) none ⟨true, false, true, "rate limit hit".data⟩
    (by decide) (by decide) (by decide) (by decide)

/-! ## C6: attempt bound, non-retryable return, exhaustion wrapping -/

/-- C6 counterexample. At the final attempt (index `= MaxRetries`, here a
configuration with 0 retries) a non-retryable failure is NOT returned
as-is: the loop breaks first and returns it wrapped in the
"max retries exceeded" error. -/
theorem C6_counterexample :
    (doPostWithRetry ⟨0, 1000, 30000, 2⟩
      (fun _ => (5, HttpExchange.response 401 "invalid credentials".data))
      (newCircuitBreaker 5 60 1)).result =
      Except.error (GoError.maxRetriesExceeded 0 (GoError.transport
        ⟨false, false, false,
         "unexpected error code: 401, response: invalid credentials".data⟩)) ∧
    (doPostWithRetry ⟨0, 1000, 30000, 2⟩
      (fun _ => (5, HttpExchange.response 401 "invalid credentials".data))
      (newCircuitBreaker 5 60 1)).result ≠
      Except.error (GoError.transport
        ⟨false, false, false,
         "unexpected error code: 401, response: invalid credentials".data⟩) := by
  constructor
  · rfl
  · decide

/-- C6 as amended: (1) any `doPostWithRetry` run makes at most
`MaxRetries + 1` transport invocations (attempts run from 0 to
`MaxRetries` inclusive); (2) a non-retryable failure at an attempt index
strictly below `MaxRetries` is returned immediately, unwrapped, with no
sleep and no further attempts; (3) a failure at the final attempt index
(`= MaxRetries`) — retryable or not — is returned wrapped in the
"max retries exceeded" error, with no sleep and no further attempts. -/
theorem C6_retry_exhaustion :
    (∀ (rc : RetryConfig) (script : Nat → Nat × HttpExchange) (cb : CircuitBreaker),
      (doPostWithRetry rc script cb).invocations ≤ rc.MaxRetries + 1) ∧
    (∀ (rc : RetryConfig) (script : Nat → Nat × HttpExchange) (fuel attempt : Nat)
      (cb : CircuitBreaker) (lastErr : Option GoError) (e : TransportErr),
      attempt < rc.MaxRetries →
      (admitStep cb (script attempt).1).2 = true →
      doPost (script attempt).2 = Except.error e →
      isRetryableError (some (GoError.transport e)) = false →
      retryFrom rc script (fuel + 1) attempt cb lastErr =
        ⟨Except.error (GoError.transport e),
         (admitStep cb (script attempt).1).1.onFailure (script attempt).1, [], 1⟩) ∧
    (∀ (rc : RetryConfig) (script : Nat → Nat × HttpExchange) (fuel : Nat)
      (cb : CircuitBreaker) (lastErr : Option GoError) (e : TransportErr),
      (admitStep cb (script rc.MaxRetries).1).2 = true →
      doPost (script rc.MaxRetries).2 = Except.error e →
      retryFrom rc script (fuel + 1) rc.MaxRetries cb lastErr =
        ⟨Except.error (GoError.maxRetriesExceeded rc.MaxRetries (GoError.transport e)),
         (admitStep cb (script rc.MaxRetries).1).1.onFailure (script rc.MaxRetries).1,
         [], 1⟩) := by
  refine ⟨?_, retryFrom_nonretryable, retryFrom_last_attempt⟩
  intro rc script cb
  exact retryFrom_invocations_le (rc.MaxRetries + 1) rc script 0 cb none

/-- Witness for C6: the invocation bound at a concrete run, a concrete
non-retryable failure at attempt 0 of a 2-retry configuration, and a
concrete failure at the final attempt index 2. -/
theorem C6_retry_exhaustion_witness :
    (doPostWithRetry ⟨2, 1000, 30000, 2⟩
      (fun _ => (5, HttpExchange.response 401 "invalid credentials".data))
      (newCircuitBreaker 5 60 1)).invocations ≤ 2 + 1 ∧
    retryFrom ⟨2, 1000, 30000, 2⟩
      (fun _ => (5, HttpExchange.response 401 "invalid credentials".data))
      4 0 (newCircuitBreaker 5 60 1) none =
      ⟨Except.error (GoError.transport
          ⟨false, false, false,
           "unexpected error code: 401, response: invalid credentials".data⟩),
       (admitStep (newCircuitBreaker 5 60 1) 5).1.onFailure 5, [], 1⟩ ∧
    retryFrom ⟨2, 1000, 30000, 2⟩
      (fun _ => (5, HttpExchange.response 401 "invalid credentials".data))
      4 2 (newCircuitBreaker 5 60 1) none =
      ⟨Except.error (GoError.maxRetriesExceeded 2 (GoError.transport
          ⟨false, false, false,
           "unexpected error code: 401, response: invalid credentials".data⟩)),
       (admitStep (newCircuitBreaker 5 60 1) 5).1.onFailure 5, [], 1⟩ :=
  ⟨C6_retry_exhaustion.1 ⟨2, 1000, 30000, 2⟩
     (fun _ => (5, HttpExchange.response 401 "invalid credentials".data))
     (newCircuitBreaker 5 60 1),
   C6_retry_exhaustion.2.1 ⟨2, 1000, 30000, 2⟩
     (fun _ => (5, HttpExchange.response 401 "invalid credentials".data))
     3 0 (newCircuitBreaker 5 60 1) none
     ⟨false, false, false,
      "unexpected error code: 401, response: invalid credentials".data⟩
     (by decide) (by decide) (by decide) (by decide),
   C6_retry_exhaustion.2.2 ⟨2, 1000, 30000, 2⟩
     (fun _ => (5, HttpExchange.response 401 "invalid credentials".data))
     3 (newCircuitBreaker 5 60 1) none
     ⟨false, false, false,
      "unexpected error code: 401, response: invalid credentials".data⟩
     (by decide) (by decide)⟩

/-! ## Manager lemmas -/

lemma processHostInfo_known_short (cfg : MgrConfig) (env : Env) (known : List String)
    (info : HostInfo) (h : known.contains info.hostname = true) :
    processHostInfo cfg env known info = ⟨Except.ok (), known, emptyLog⟩ := by
  have hm : info.hostname ∈ known := by simpa using h
  simp [processHostInfo, hm]

lemma processHostInfo_upserts_le (cfg : MgrConfig) (env : Env) (known : List String)
    (info : HostInfo) : (processHostInfo cfg env known info).log.upserts ≤ 1 := by
  unfold processHostInfo
  rcases hscan : findMatch env.records info.subdomain with _ | r <;>
    simp only [hscan] <;> split <;> try simp [emptyLog]
  all_goals split <;> try simp [emptyLog]
  all_goals split_ifs <;> simp [emptyLog]

set_option maxHeartbeats 2000000 in
lemma processHostInfo_ok_marked (cfg : MgrConfig) (env : Env) (known : List String)
    (info : HostInfo) (h : (processHostInfo cfg env known info).res = Except.ok ()) :
    (processHostInfo cfg env known info).known.contains info.hostname = true := by
  unfold processHostInfo at h ⊢
  rcases hscan : findMatch env.records info.subdomain with _ | r <;>
    simp only [hscan] at h ⊢ <;> split at h <;> try simp_all [emptyLog]
  all_goals split at h <;> try simp_all [emptyLog]
  all_goals split_ifs at h <;> simp_all [emptyLog]

set_option maxHeartbeats 2000000 in
lemma processHostInfo_upsert_ok (cfg : MgrConfig) (env : Env) (known : List String)
    (info : HostInfo) (hup : env.upsertOk = true)
    (h : (processHostInfo cfg env known info).log.upserts = 1) :
    (processHostInfo cfg env known info).res = Except.ok () := by
  unfold processHostInfo at h ⊢
  rcases hscan : findMatch env.records info.subdomain with _ | r <;>
    simp only [hscan] at h ⊢ <;> split at h <;> try simp_all [emptyLog]
  all_goals split at h <;> try simp_all [emptyLog]
  all_goals split_ifs at h <;> simp_all [emptyLog]

/-! ## C4: idempotence of `ProcessHostInfo` -/

/-- C4. Two successive `ProcessHostInfo` calls for the same fact against
an unchanged environment perform at most one successful remote write in
total; and whenever the first call returns success, it has marked the
hostname known, so the second call returns success immediately with an
empty call log (no login, no queries, no write — an idempotent no-op). -/
theorem C4_process_fact_idempotent (cfg : MgrConfig) (env : Env)
    (known : List String) (info : HostInfo) :
    succUpserts env (processHostInfo cfg env known info).log +
      succUpserts env (processHostInfo cfg env
        (processHostInfo cfg env known info).known info).log ≤ 1 ∧
    ((processHostInfo cfg env known info).res = Except.ok () →
      (processHostInfo cfg env known info).known.contains info.hostname = true ∧
      processHostInfo cfg env (processHostInfo cfg env known info).known info =
        ⟨Except.ok (), (processHostInfo cfg env known info).known, emptyLog⟩) := by
  constructor
  · rcases hup : env.upsertOk with _ | _
    · simp [succUpserts, hup]
    · simp only [succUpserts, hup, if_pos]
      have h1 := processHostInfo_upserts_le cfg env known info
      rcases Nat.lt_or_ge (processHostInfo cfg env known info).log.upserts 1 with hlt | hge
      · have h2 := processHostInfo_upserts_le cfg env
          (processHostInfo cfg env known info).known info
        omega
      · have heq : (processHostInfo cfg env known info).log.upserts = 1 := by omega
        have hok := processHostInfo_upsert_ok cfg env known info hup heq
        have hmk := processHostInfo_ok_marked cfg env known info hok
        rw [processHostInfo_known_short cfg env _ info hmk]
        simp [emptyLog]
        omega
  · intro hok
    have hmk := processHostInfo_ok_marked cfg env known info hok
    exact ⟨hmk, processHostInfo_known_short cfg env _ info hmk⟩

/-- Witness for C4: a fresh hostname, an environment where everything
succeeds, so the first call writes once and the second call is a no-op. -/
theorem C4_process_fact_idempotent_witness :
    (succUpserts ⟨none, true, true, true, [], true, true, true⟩
        (processHostInfo ⟨"1.2.3.4", false⟩ ⟨none, true, true, true, [], true, true, true⟩
          [] ⟨"web", "app.example.com", "example.com", "app"⟩).log +
      succUpserts ⟨none, true, true, true, [], true, true, true⟩
        (processHostInfo ⟨"1.2.3.4", false⟩ ⟨none, true, true, true, [], true, true, true⟩
          (processHostInfo ⟨"1.2.3.4", false⟩
            ⟨none, true, true, true, [], true, true, true⟩
            [] ⟨"web", "app.example.com", "example.com", "app"⟩).known
          ⟨"web", "app.example.com", "example.com", "app"⟩).log ≤ 1) ∧
    ((processHostInfo ⟨"1.2.3.4", false⟩ ⟨none, true, true, true, [], true, true, true⟩
        [] ⟨"web", "app.example.com", "example.com", "app"⟩).res = Except.ok () ∧
      (processHostInfo ⟨"1.2.3.4", false⟩ ⟨none, true, true, true, [], true, true, true⟩
        [] ⟨"web", "app.example.com", "example.com", "app"⟩).known.contains
          "app.example.com" = true) :=
  ⟨(C4_process_fact_idempotent ⟨"1.2.3.4", false⟩
      ⟨none, true, true, true, [], true, true, true⟩ []
      ⟨"web", "app.example.com", "example.com", "app"⟩).1,
   by decide,
   ((C4_process_fact_idempotent ⟨"1.2.3.4", false⟩
      ⟨none, true, true, true, [], true, true, true⟩ []
      ⟨"web", "app.example.com", "example.com", "app"⟩).2 (by decide)).1⟩

/-! ## C8: upsert failure handling and persistence degradation -/

set_option maxHeartbeats 2000000 in
/-- C8. If the run performed the remote write and it failed
(`UpdateDnsRecords` returned an error), the error is notified and
returned and the hostname is NOT marked known (the known-hosts set is
unchanged). If the write succeeded, the call returns success and marks
the hostname known; a subsequent persistence failure is only counted as
a logged warning — the result is success regardless of `persistOk`. -/
theorem C8_upsert_failure_not_marked (cfg : MgrConfig) (env : Env)
    (known : List String) (info : HostInfo) :
    ((processHostInfo cfg env known info).log.upserts = 1 → env.upsertOk = false →
      (processHostInfo cfg env known info).res = Except.error ProcErr.upsertFailed ∧
      (processHostInfo cfg env known info).known = known ∧
      Notif.errUpsert info.hostname ∈ (processHostInfo cfg env known info).log.notifs) ∧
    ((processHostInfo cfg env known info).log.upserts = 1 → env.upsertOk = true →
      (processHostInfo cfg env known info).res = Except.ok () ∧
      (processHostInfo cfg env known info).known.contains info.hostname = true ∧
      (env.hasStateManager = true → env.persistOk = false →
        (processHostInfo cfg env known info).log.persistWarnings = 1)) := by
  constructor
  · intro h hup
    unfold processHostInfo at h ⊢
    rcases hscan : findMatch env.records info.subdomain with _ | r <;>
      simp only [hscan] at h ⊢ <;> split at h <;> try simp_all [emptyLog]
    all_goals split at h <;> try simp_all [emptyLog]
    all_goals split_ifs at h <;> simp_all [emptyLog]
  · intro h hup
    refine ⟨processHostInfo_upsert_ok cfg env known info hup h,
      processHostInfo_ok_marked cfg env known info
        (processHostInfo_upsert_ok cfg env known info hup h), ?_⟩
    intro hsm hpf
    unfold processHostInfo at h ⊢
    rcases hscan : findMatch env.records info.subdomain with _ | r <;>
      simp only [hscan] at h ⊢ <;> split at h <;> try simp_all [emptyLog]
    all_goals split at h <;> try simp_all [emptyLog]
    all_goals split_ifs at h <;> simp_all [emptyLog]

/-- Witness for C8: a failing-write environment (write attempted, error
returned, hostname not marked) and a succeeding-write environment whose
persistence fails (success returned, warning counted). -/
theorem C8_upsert_failure_not_marked_witness :
    ((processHostInfo ⟨"1.2.3.4", false⟩
        ⟨none, true, true, true, [], false, true, true⟩
        [] ⟨"web", "app.example.com", "example.com", "app"⟩).res =
        Except.error ProcErr.upsertFailed ∧
      (processHostInfo ⟨"1.2.3.4", false⟩
        ⟨none, true, true, true, [], false, true, true⟩
        [] ⟨"web", "app.example.com", "example.com", "app"⟩).known = [] ∧
      Notif.errUpsert "app.example.com" ∈
        (processHostInfo ⟨"1.2.3.4", false⟩
          ⟨none, true, true, true, [], false, true, true⟩
          [] ⟨"web", "app.example.com", "example.com", "app"⟩).log.notifs) ∧
    ((processHostInfo ⟨"1.2.3.4", false⟩
        ⟨none, true, true, true, [], true, true, false⟩
        [] ⟨"web", "app.example.com", "example.com", "app"⟩).res = Except.ok () ∧
      (processHostInfo ⟨"1.2.3.4", false⟩
        ⟨none, true, true, true, [], true, true, false⟩
        [] ⟨"web", "app.example.com", "example.com", "app"⟩).known.contains
          "app.example.com" = true ∧
      (processHostInfo ⟨"1.2.3.4", false⟩
        ⟨none, true, true, true, [], true, true, false⟩
        [] ⟨"web", "app.example.com", "example.com", "app"⟩).log.persistWarnings = 1) :=
  ⟨(C8_upsert_failure_not_marked ⟨"1.2.3.4", false⟩
      ⟨none, true, true, true, [], false, true, true⟩ []
      ⟨"web", "app.example.com", "example.com", "app"⟩).1 (by decide) (by decide),
   by
    have h := (C8_upsert_failure_not_marked ⟨"1.2.3.4", false⟩
      ⟨none, true, true, true, [], true, true, false⟩ []
      ⟨"web", "app.example.com", "example.com", "app"⟩).2 (by decide) (by decide)
    exact ⟨h.1, h.2.1, h.2.2 (by decide) (by decide)⟩⟩

/-! ## C9: dry-run performs no remote write -/

/-- C9. With dry-run enabled, no `ProcessHostInfo` run ever calls
`UpdateDnsRecords`; and whenever the run reaches the create/update
decision (fresh hostname, the host IP resolves, login and both queries
succeed, and the scan does not find an already-in-sync record), the call
still marks the hostname known, reports the intended action (the dry-run
update/create notification), and returns success. -/
theorem C9_dry_run_no_upsert (cfg : MgrConfig) (env : Env) (known : List String)
    (info : HostInfo) (hdry : cfg.dryRun = true) :
    (processHostInfo cfg env known info).log.upserts = 0 ∧
    (known.contains info.hostname = false →
      env.loginOk = true → env.zoneOk = true → env.recordsOk = true →
      ∀ ip : String, (if cfg.hostIP ≠ "" then some cfg.hostIP else env.autoIP) = some ip →
      (match findMatch env.records info.subdomain with
        | some r => r.destination == ip
        | none => false) = false →
      (processHostInfo cfg env known info).res = Except.ok () ∧
      (processHostInfo cfg env known info).known.contains info.hostname = true ∧
      (processHostInfo cfg env known info).log.notifs =
        [(if (findMatch env.records info.subdomain).isSome then
            Notif.dryRunUpdate info.hostname
              (match findMatch env.records info.subdomain with
                | some r => r.destination
                | none => "") ip
          else Notif.dryRunCreate info.hostname ip)]) := by
  constructor
  · unfold processHostInfo
    rcases hscan : findMatch env.records info.subdomain with _ | r <;>
      simp only [hscan] <;> split <;> try simp [emptyLog]
    all_goals split <;> try simp [emptyLog]
    all_goals split_ifs <;> simp_all [emptyLog]
  · intro hk hlog hzone hrec ip hip hmatch
    have hm : info.hostname ∉ known := by simpa using hk
    unfold processHostInfo
    rw [hip]
    simp [hm, hlog, hzone, hrec, hdry, hmatch, emptyLog]

/-- Witness for C9: dry-run processing of a fresh hostname against an
environment holding a stale record for the same label (an "update"
classification): no upsert, marked known, dry-run update notification. -/
theorem C9_dry_run_no_upsert_witness :
    (processHostInfo ⟨"1.2.3.4", true⟩
      ⟨none, true, true, true, [⟨"app", "A", "5.6.7.8", "0"⟩], true, true, true⟩
      [] ⟨"web", "app.example.com", "example.com", "app"⟩).log.upserts = 0 ∧
    ((processHostInfo ⟨"1.2.3.4", true⟩
        ⟨none, true, true, true, [⟨"app", "A", "5.6.7.8", "0"⟩], true, true, true⟩
        [] ⟨"web", "app.example.com", "example.com", "app"⟩).res = Except.ok () ∧
      (processHostInfo ⟨"1.2.3.4", true⟩
        ⟨none, true, true, true, [⟨"app", "A", "5.6.7.8", "0"⟩], true, true, true⟩
        [] ⟨"web", "app.example.com", "example.com", "app"⟩).known.contains
          "app.example.com" = true ∧
      (processHostInfo ⟨"1.2.3.4", true⟩
        ⟨none, true, true, true, [⟨"app", "A", "5.6.7.8", "0"⟩], true, true, true⟩
        [] ⟨"web", "app.example.com", "example.com", "app"⟩).log.notifs =
        [Notif.dryRunUpdate "app.example.com" "5.6.7.8" "1.2.3.4"]) := by
  refine ⟨(C9_dry_run_no_upsert ⟨"1.2.3.4", true⟩
      ⟨none, true, true, true, [⟨"app", "A", "5.6.7.8", "0"⟩], true, true, true⟩
      [] ⟨"web", "app.example.com", "example.com", "app"⟩ (by decide)).1, ?_⟩
  have h := (C9_dry_run_no_upsert ⟨"1.2.3.4", true⟩
      ⟨none, true, true, true, [⟨"app", "A", "5.6.7.8", "0"⟩], true, true, true⟩
      [] ⟨"web", "app.example.com", "example.com", "app"⟩ (by decide)).2
      (by decide) (by decide) (by decide) (by decide) "1.2.3.4" (by decide) (by decide)
  exact ⟨h.1, h.2.1, by rw [h.2.2]; decide⟩
